import Mathlib

/-!
# batch-mcp: the execution core of `cmd/batch-mcp/main.go`

A shallow embedding of `NewMATLABServer`, `executeMATLAB` and
`handleExecuteMATLAB`.

* Go strings are Lean strings; an `error` value is the text of its `Error()`
  method, `nil` is `none`.
* `time.Duration` is an `Int` count of nanoseconds kept inside the int64 range
  by `time.wrap64`.
* The operating system is explicit state: `World` holds the environment
  variables, the files and the trace of what the program made it do so far; what the
  machine decides on its own (random names, I/O faults, what the interpreter
  process does and whether the deadline fires) is read from a `Host`.
* The standard-library and `mcp-go` functions the program calls are written out
  from their Unix implementations under the name they have in Go.
-/

set_option autoImplicit false
set_option maxRecDepth 100000

namespace BatchMCP

/-! ## Strings and paths -/

/-- The byte `'0' + d` for a decimal digit `d`. -/
def digitByte (d : Nat) : Char :=
  Char.ofNat (48 + d % 10)

/-- The digit loop of `itoa.Uitoa` and of `time.fmtInt`: the decimal digits of
`val` are written in front of `buf`, least significant first.  The counter
bounds the number of digits (20 is enough for a 64-bit value). -/
def itoa.digits : Nat → Nat → List Char → List Char
  | 0, _, buf => buf
  | n + 1, val, buf =>
    if val < 10 then digitByte val :: buf
    else itoa.digits n (val / 10) (digitByte val :: buf)

/-- Go `internal/itoa.Uitoa`: the decimal rendering of an unsigned value. -/
def itoa.Uitoa (val : Nat) : String :=
  if val = 0 then "0" else String.mk (itoa.digits 20 val [])

/-- Go `strings.HasSuffix`, on character lists. -/
def strings.HasSuffix (s suffix : List Char) : Bool :=
  decide (suffix.length ≤ s.length ∧ s.drop (s.length - suffix.length) = suffix)

/-- Go `strings.TrimSuffix`: `s` without the trailing `suffix`, or `s` itself
when it does not end in `suffix`. -/
def strings.TrimSuffix (s suffix : String) : String :=
  if strings.HasSuffix s.data suffix.data then
    String.mk (s.data.take (s.data.length - suffix.data.length))
  else s

/-- Go `strings.Contains`: whether `substr` occurs within `s`. -/
def strings.Contains (s substr : String) : Bool :=
  decide (substr.data <:+: s.data)

/-- Go `os.IsPathSeparator` on Unix. -/
def os.IsPathSeparator (c : Char) : Bool :=
  decide (c = '/')

/-- The backtracking of `filepath.Clean` at a `..` element: `out.w--`, then
`out.w` moves down while it is above `dotdot` and `out[out.w]` is no
separator.  The result is the new `out.w`. -/
def filepath.Clean.backtrack (out : List Char) (dotdot : Nat) : Nat → Nat
  | 0 => 0
  | w + 1 =>
    if dotdot < w + 1 ∧ out.get? (w + 1) ≠ some '/' then filepath.Clean.backtrack out dotdot w
    else w + 1

/-- The main loop of `filepath.Clean`.  `path` is what is left to read
(`path[r:]`), `out` the buffer written so far (`out.w = out.length`).  Every
round reads at least one byte, so a counter equal to the length of the path
never runs out. -/
def filepath.Clean.loop (rooted : Bool) : Nat → List Char → List Char → Nat → List Char
  | 0, _, out, _ => out
  | _ + 1, [], out, _ => out
  | n + 1, c :: rest, out, dotdot =>
    if c = '/' then
      -- empty path element
      filepath.Clean.loop rooted n rest out dotdot
    else if c = '.' ∧ (rest = [] ∨ rest.head? = some '/') then
      -- . element
      filepath.Clean.loop rooted n rest out dotdot
    else if c = '.' ∧ rest.head? = some '.' ∧ (rest.tail = [] ∨ rest.tail.head? = some '/') then
      -- .. element: remove to last separator
      if dotdot < out.length then
        filepath.Clean.loop rooted n rest.tail
          (out.take (filepath.Clean.backtrack out dotdot (out.length - 1))) dotdot
      else if rooted then
        filepath.Clean.loop rooted n rest.tail out dotdot
      else
        let out1 := (if 0 < out.length then out ++ ['/'] else out) ++ ['.', '.']
        filepath.Clean.loop rooted n rest.tail out1 out1.length
    else
      -- real path element: add slash if needed, copy element
      let out1 :=
        if (rooted ∧ out.length ≠ 1) ∨ (¬ rooted ∧ out.length ≠ 0) then out ++ ['/'] else out
      filepath.Clean.loop rooted n ((c :: rest).dropWhile (fun x => x ≠ '/'))
        (out1 ++ (c :: rest).takeWhile (fun x => x ≠ '/')) dotdot

/-- Go `filepath.Clean` on Unix (no volume name, `FromSlash` is the
identity): the shortest path equivalent to `path` by purely lexical
processing. -/
def filepath.Clean (path : String) : String :=
  if path = "" then "."
  else
    let rooted := path.data.head? = some '/'
    let out := filepath.Clean.loop rooted path.data.length
      (if rooted then path.data.tail else path.data) (if rooted then ['/'] else [])
      (if rooted then 1 else 0)
    if out = [] then "." else String.mk out

/-- The part of `path` up to and including its last separator
(`path[:i+1]` in `filepath.Dir`); empty when there is no separator. -/
def filepath.Dir.cut (path : List Char) : List Char :=
  (path.reverse.dropWhile (fun x => x ≠ '/')).reverse

/-- Go `filepath.Dir` on Unix: all but the last element of `path`, cleaned. -/
def filepath.Dir (path : String) : String :=
  filepath.Clean (String.mk (filepath.Dir.cut path.data))

/-- Go `filepath.Base` on Unix: the last element of `path`, trailing
separators removed first. -/
def filepath.Base (path : String) : String :=
  if path = "" then "."
  else
    -- strip trailing slashes
    let stripped := (path.data.reverse.dropWhile (fun x => x = '/')).reverse
    -- find the last element
    let last := (stripped.reverse.takeWhile (fun x => x ≠ '/')).reverse
    -- if empty now, it had only slashes
    if last = [] then "/" else String.mk last

/-- Go `os.joinPath` (used by `os.CreateTemp`): `dir` and `name` with exactly
one separator added unless `dir` already ends in one. -/
def os.joinPath (dir name : String) : String :=
  if dir.data.getLast? = some '/' then dir ++ name
  else dir ++ "/" ++ name

/-! ## Durations -/

/-- Go `time.Second`, in nanoseconds. -/
def time.Second : Int := 1000000000

/-- Two's-complement wrap-around of an integer into the int64 range. -/
def time.wrap64 (n : Int) : Int :=
  (n + 2 ^ 63) % 2 ^ 64 - 2 ^ 63

/-- Go `time.fmtFrac`: the fraction of `v / 10 ^ prec` written in front of
`buf` without trailing zeros (and without the point when it is zero), and the
value `v / 10 ^ prec`. -/
def time.fmtFrac : Nat → List Char → Nat → Bool → List Char × Nat
  | 0, buf, v, print => (if print then '.' :: buf else buf, v)
  | prec + 1, buf, v, print =>
    let digit := v % 10
    let print1 := print || decide (digit ≠ 0)
    time.fmtFrac prec (if print1 then digitByte digit :: buf else buf) (v / 10) print1

/-- Go `time.fmtInt`: `v` in decimal written in front of `buf`. -/
def time.fmtInt (buf : List Char) (v : Nat) : List Char :=
  if v = 0 then '0' :: buf else itoa.digits 20 v buf

/-- Go `time.Duration.String` (the `%v` rendering of a duration), such as
`1s`, `1.5s`, `5m0s` or `0s`. -/
def time.Duration.String (d : Int) : String :=
  let u := d.natAbs
  let body : List Char :=
    if u < 1000000000 then
      -- smaller than a second: use smaller units, like 1.2ms
      if u = 0 then ['0', 's']
      else if u < 1000 then
        let r := time.fmtFrac 0 ['n', 's'] u false
        time.fmtInt r.1 r.2
      else if u < 1000000 then
        let r := time.fmtFrac 3 ['µ', 's'] u false
        time.fmtInt r.1 r.2
      else
        let r := time.fmtFrac 6 ['m', 's'] u false
        time.fmtInt r.1 r.2
    else
      let r := time.fmtFrac 9 ['s'] u false
      -- r.2 is now integer seconds
      let b1 := time.fmtInt r.1 (r.2 % 60)
      let mins := r.2 / 60
      if 0 < mins then
        let b2 := time.fmtInt ('m' :: b1) (mins % 60)
        let hours := mins / 60
        if 0 < hours then time.fmtInt ('h' :: b2) hours else b2
      else b1
  String.mk (if d < 0 then '-' :: body else body)

/-! ## JSON numbers -/

/-- A finite float64 value, `mant * 2 ^ exp2`; every number a JSON document can
carry into a float64 has this form (`1.5` is `3 * 2 ^ (-1)`). -/
structure Float64 where
  mant : Int
  exp2 : Int
  deriving DecidableEq, Repr

/-- The integer part of a float64, rounding toward zero. -/
def Float64.trunc (f : Float64) : Int :=
  if 0 ≤ f.exp2 then f.mant * 2 ^ f.exp2.toNat
  else Int.tdiv f.mant (2 ^ (-f.exp2).toNat)

/-- The Go conversion `time.Duration(f)` of a float64 to int64: the fraction
is discarded (truncation toward zero).  For a value outside the int64 range Go
leaves the result to the implementation; amd64 yields the minimum int64. -/
def time.DurationOf (f : Float64) : Int :=
  if -2 ^ 63 ≤ f.trunc ∧ f.trunc < 2 ^ 63 then f.trunc else -2 ^ 63

/-- Go multiplication of two durations (int64 with wrap-around). -/
def time.mul (a b : Int) : Int :=
  time.wrap64 (a * b)

/-! ## The machine -/

/-- An `exec.Cmd` as `exec.CommandContext` and the assignment to `cmd.Dir`
leave it: program, arguments after the program name, working directory. -/
structure exec.Cmd where
  Path : String
  Args : List String
  Dir : String
  deriving DecidableEq, Repr

/-- How a child process ended, as `Cmd.CombinedOutput` reports it. -/
inductive ProcResult where
  /-- The process started and exited with status 0: `err == nil`. -/
  | success (output : String)
  /-- The process started and did not exit with status 0 (non-zero exit, or
  killed by a signal); `summary` is the text of the `*exec.ExitError`. -/
  | failure (summary : String) (output : String)
  /-- The process could not be started: `Start` returned the error `reason`
  and nothing was captured. -/
  | launchFailed (reason : String)
  deriving DecidableEq, Repr

/-- The bytes `CombinedOutput` returns. -/
def ProcResult.output : ProcResult → String
  | .success o => o
  | .failure _ o => o
  | .launchFailed _ => ""

/-- The error `CombinedOutput` returns. -/
def ProcResult.err : ProcResult → Option String
  | .success _ => none
  | .failure s _ => some s
  | .launchFailed r => some r

/-- Whether a child process came into being. -/
def ProcResult.started : ProcResult → Bool
  | .success _ => true
  | .failure _ _ => true
  | .launchFailed _ => false

/-- What line 62 to 64 of `main.go` observe: the result of `CombinedOutput`
and whether `ctx.Err()` is `context.DeadlineExceeded` once it has returned.
`CombinedOutput` returns when the process has exited and every holder of its
output pipe has closed it, so the deadline may have fired by then although the
process itself exited before it. -/
structure RunResult where
  result : ProcResult
  deadlineExceeded : Bool
  deriving DecidableEq, Repr

/-- What the program made the operating system do, in order: a file created,
written, closed or removed, and a child process started for `cmd` under the
deadline `timeout`. -/
inductive Event where
  | created (name : String)
  | wrote (name : String) (data : String)
  | closed (name : String)
  | ran (cmd : exec.Cmd) (timeout : Int)
  | removed (name : String)
  deriving DecidableEq, Repr

/-- The state of the operating system: environment variables, files (name and
content) and the trace of what the program made it do. -/
structure World where
  environ : List (String × String)
  files : List (String × String)
  trace : List Event

/-- What the machine decides during a call.
* `rand i` is the value drawn by the `i`-th call of `os.nextRandom`;
* `openFault name` is the error, other than "file exists", with which creating
  `name` fails, if any;
* `writeFault name data` is a failed write: how many characters reached the
  file and the error;
* `run cmd timeout files` is what running `cmd` under the deadline `timeout`
  gives when the files are `files`;
* `ParseFloat` is `strconv.ParseFloat(s, 64)`, taken as given. -/
structure Host where
  rand : Nat → Nat
  openFault : String → Option String
  writeFault : String → String → Option (Nat × String)
  run : exec.Cmd → Int → List (String × String) → RunResult
  ParseFloat : String → Option Float64

/-- Go `os.LookupEnv`. -/
def os.LookupEnv (w : World) (key : String) : Option String :=
  (w.environ.find? (fun kv => decide (kv.1 = key))).map (fun kv => kv.2)

/-- Go `os.Getenv`: the value of the variable, empty when it is unset. -/
def os.Getenv (w : World) (key : String) : String :=
  (os.LookupEnv w key).getD ""

/-- Go `os.TempDir` on Unix: `$TMPDIR` if non-empty, else `/tmp`. -/
def os.TempDir (w : World) : String :=
  if os.Getenv w "TMPDIR" = "" then "/tmp" else os.Getenv w "TMPDIR"

/-- Go `os.nextRandom`: a uint32 in decimal. -/
def os.nextRandom (h : Host) (i : Nat) : String :=
  itoa.Uitoa (h.rand i % 2 ^ 32)

/-- Go `os.prefixAndSuffix`: the pattern split at its last `*`; a pattern with
a path separator is an error. -/
def os.prefixAndSuffix (pattern : String) : Except String (String × String) :=
  if pattern.data.any os.IsPathSeparator then .error "pattern contains path separator"
  else if pattern.data.any (fun c => decide (c = '*')) then
    let sfx := (pattern.data.reverse.takeWhile (fun c => c ≠ '*')).reverse
    .ok (String.mk (pattern.data.take (pattern.data.length - sfx.length - 1)), String.mk sfx)
  else .ok (pattern, "")

/-- Whether a file of that name exists. -/
def World.hasFile (w : World) (name : String) : Bool :=
  w.files.any (fun f => decide (f.1 = name))

/-- The retry loop of `os.CreateTemp`: `OpenFile(name, O_RDWR|O_CREATE|O_EXCL,
0600)` on fresh random names while the name exists; `left` attempts remain and
`attempt` have been made (Go gives up after 10000). -/
def os.CreateTemp.loop (h : Host) (pfx sfx : String) (w : World) :
    Nat → Nat → World × Except String String
  | 0, _ => (w, .error ("createtemp " ++ pfx ++ "*" ++ sfx ++ ": file exists"))
  | left + 1, attempt =>
    match h.openFault (pfx ++ os.nextRandom h attempt ++ sfx) with
    | some msg => (w, .error msg)
    | none =>
      if w.hasFile (pfx ++ os.nextRandom h attempt ++ sfx) then
        os.CreateTemp.loop h pfx sfx w left (attempt + 1)
      else
        ({ w with
            files := w.files ++ [(pfx ++ os.nextRandom h attempt ++ sfx, "")]
            trace := w.trace ++ [Event.created (pfx ++ os.nextRandom h attempt ++ sfx)] },
          .ok (pfx ++ os.nextRandom h attempt ++ sfx))

/-- Go `os.CreateTemp`: a new, empty file in `dir` (the temporary directory
when `dir` is empty) named after `pattern` with its last `*` replaced by a
random string.  Returns the name of the file (`tmpFile.Name()`). -/
def os.CreateTemp (h : Host) (dir pattern : String) (w : World) :
    World × Except String String :=
  match os.prefixAndSuffix pattern with
  | .error e => (w, .error ("createtemp " ++ pattern ++ ": " ++ e))
  | .ok (pfx, sfx) =>
    os.CreateTemp.loop h (os.joinPath (if dir = "" then os.TempDir w else dir) pfx) sfx w 10000 0

/-- Go `(*os.File).WriteString` on the file `name`: `data` is appended to the
content, or only its first characters when the write fails. -/
def File.WriteString (h : Host) (name data : String) (w : World) : World × Option String :=
  let written := match h.writeFault name data with
    | some (n, _) => String.mk (data.data.take n)
    | none => data
  ({ w with
      files := w.files.map (fun f => if f.1 = name then (f.1, f.2 ++ written) else f)
      trace := w.trace ++ [Event.wrote name written] },
    (h.writeFault name data).map (fun e => e.2))

/-- Go `(*os.File).Close`. -/
def File.Close (name : String) (w : World) : World :=
  { w with trace := w.trace ++ [Event.closed name] }

/-- Go `os.Remove` with its error discarded, as the deferred call does: the
removal is issued and the file of that name, if any, is gone. -/
def os.Remove (name : String) (w : World) : World :=
  { w with
      files := w.files.filter (fun f => decide (f.1 ≠ name))
      trace := w.trace ++ [Event.removed name] }

/-- Go `cmd.CombinedOutput()` for a command made by `exec.CommandContext` with
a context from `context.WithTimeout(context.Background(), timeout)`, together
with the state of `ctx.Err()` afterwards.  A context whose timeout is not
positive has expired when it is made: `Start` returns `ctx.Err()` and nothing
is launched.  Otherwise the host decides, and a process is on the trace only
when one was started. -/
def exec.Cmd.CombinedOutput (h : Host) (timeout : Int) (cmd : exec.Cmd) (w : World) :
    World × RunResult :=
  if timeout ≤ 0 then (w, ⟨.launchFailed "context deadline exceeded", true⟩)
  else
    (if (h.run cmd timeout w.files).result.started then
        { w with trace := w.trace ++ [Event.ran cmd timeout] }
      else w,
      h.run cmd timeout w.files)

/-! ## The program -/

/-- The `MATLABServer` struct. -/
structure MATLABServer where
  matlabPath : String
  deriving DecidableEq, Repr

/-- `NewMATLABServer` (main.go, lines 24 to 32). -/
def NewMATLABServer (w : World) : MATLABServer :=
  let matlabPath := os.Getenv w "MATLAB_PATH"
  { matlabPath := if matlabPath = "" then "matlab" else matlabPath }

/-- The command of lines 51, 58 and 59: `matlab -batch baseName`, run in the
directory of the temporary file. -/
def executeMATLAB.command (s : MATLABServer) (name : String) : exec.Cmd :=
  let baseName := strings.TrimSuffix (filepath.Base name) ".m"
  { Path := s.matlabPath, Args := ["-batch", baseName], Dir := filepath.Dir name }

/-- Lines 43 to 72 of `executeMATLAB`, which run once the temporary file `name`
exists and its removal has been deferred. -/
def executeMATLAB.body (h : Host) (s : MATLABServer) (code : String) (timeout : Int)
    (name : String) (w : World) : World × String × Option String :=
  match File.WriteString h name code w with
  | (w1, some err) =>
    (File.Close name w1, "", some ("failed to write MATLAB code to file: " ++ err))
  | (w1, none) =>
    match exec.Cmd.CombinedOutput h timeout (executeMATLAB.command s name) (File.Close name w1) with
    | (w2, r) =>
      if r.deadlineExceeded then
        (w2, "", some ("MATLAB execution timed out after " ++ time.Duration.String timeout))
      else
        match r.result.err with
        | some err => (w2, r.result.output, some ("MATLAB execution failed: " ++ err))
        | none => (w2, r.result.output, none)

/-- `executeMATLAB` (main.go, lines 35 to 73): the new state of the machine,
the returned string and the returned error.  The deferred `os.Remove` runs
after the body on every path that created the file. -/
def executeMATLAB (h : Host) (s : MATLABServer) (code : String) (timeout : Int) (w : World) :
    World × String × Option String :=
  match os.CreateTemp h "" "matlab_code_*.m" w with
  | (w1, .error err) => (w1, "", some ("failed to create temporary file: " ++ err))
  | (w1, .ok name) =>
    match executeMATLAB.body h s code timeout name w1 with
    | (w2, out) => (os.Remove name w2, out)

/-! ## The tool handler -/

/-- A JSON value as `encoding/json` decodes it into `any`. -/
inductive mcp.Value where
  | null
  | bool (b : Bool)
  | number (f : Float64)
  | string (s : String)
  | array
  | object
  deriving DecidableEq, Repr

/-- An `mcp.CallToolRequest`, reduced to its arguments (`GetArguments()`). -/
structure mcp.CallToolRequest where
  Arguments : List (String × mcp.Value)

/-- The map lookup `args[key]`. -/
def mcp.CallToolRequest.arg (r : mcp.CallToolRequest) (key : String) : Option mcp.Value :=
  (r.Arguments.find? (fun kv => decide (kv.1 = key))).map (fun kv => kv.2)

/-- The `mcp-go` method `RequireString`: the string argument `key`, an error
when it is missing or not a string. -/
def mcp.CallToolRequest.RequireString (r : mcp.CallToolRequest) (key : String) :
    Except String String :=
  match r.arg key with
  | some (.string s) => .ok s
  | some _ => .error ("argument \"" ++ key ++ "\" is not a string")
  | none => .error ("required argument \"" ++ key ++ "\" not found")

/-- The `mcp-go` method `GetFloat`: the number argument `key` (a string is
parsed), `defaultValue` when it is missing or of another kind.  The Go `int`
case of the method cannot arise for arguments decoded from JSON, whose numbers
are all float64. -/
def mcp.CallToolRequest.GetFloat (h : Host) (r : mcp.CallToolRequest) (key : String)
    (defaultValue : Float64) : Float64 :=
  match r.arg key with
  | some (.number f) => f
  | some (.string s) => (h.ParseFloat s).getD defaultValue
  | _ => defaultValue

/-- An `mcp.TextContent`. -/
structure mcp.TextContent where
  Type_ : String
  Text : String
  deriving DecidableEq, Repr

/-- An `mcp.CallToolResult`. -/
structure mcp.CallToolResult where
  Content : List mcp.TextContent
  IsError : Bool
  deriving DecidableEq, Repr

/-- The `mcp-go` helper `NewToolResultText`. -/
def mcp.NewToolResultText (text : String) : mcp.CallToolResult :=
  { Content := [{ Type_ := "text", Text := text }], IsError := false }

/-- The `mcp-go` helper `NewToolResultError`. -/
def mcp.NewToolResultError (text : String) : mcp.CallToolResult :=
  { Content := [{ Type_ := "text", Text := text }], IsError := true }

/-- The timeout of line 84: `time.Duration(request.GetFloat("timeout", 300)) *
time.Second`. -/
def handleExecuteMATLAB.timeout (h : Host) (request : mcp.CallToolRequest) : Int :=
  time.mul (time.DurationOf (request.GetFloat h "timeout" ⟨300, 0⟩)) time.Second

/-- `handleExecuteMATLAB` (main.go, lines 76 to 96): the new state of the
machine and either the returned error or the returned tool result. -/
def handleExecuteMATLAB (h : Host) (s : MATLABServer) (request : mcp.CallToolRequest)
    (w : World) : World × Except String mcp.CallToolResult :=
  match request.RequireString "code" with
  | .error err => (w, .error ("code parameter is required: " ++ err))
  | .ok code =>
    match executeMATLAB h s code (handleExecuteMATLAB.timeout h request) w with
    | (w1, output, some err) =>
      (w1, .ok (mcp.NewToolResultError
        ("Error executing MATLAB code: " ++ err ++ "\nOutput: " ++ output)))
    | (w1, output, none) => (w1, .ok (mcp.NewToolResultText output))

/-! ## Sample machines

Concrete hosts, worlds and requests on which the statements below are
evaluated. -/

/-- A host on which staging never fails and every run gives `r`. -/
def hostReturning (r : RunResult) : Host where
  rand := fun i => 123 + i
  openFault := fun _ => none
  writeFault := fun _ _ => none
  run := fun _ _ _ => r
  ParseFloat := fun _ => none

/-- A host on which no file can be created: every open fails with `msg`. -/
def hostOpenFault (msg : String) : Host where
  rand := fun i => 123 + i
  openFault := fun _ => some msg
  writeFault := fun _ _ => none
  run := fun _ _ _ => ⟨.success "", false⟩
  ParseFloat := fun _ => none

/-- A host on which every write stops after `n` characters with the error
`msg`. -/
def hostWriteFault (n : Nat) (msg : String) : Host where
  rand := fun i => 123 + i
  openFault := fun _ => none
  writeFault := fun _ _ => some (n, msg)
  run := fun _ _ _ => ⟨.success "", false⟩
  ParseFloat := fun _ => none

/-- A host on which nothing fails and the interpreter prints `5`. -/
def sampleHost : Host :=
  hostReturning ⟨.success "     5\n\n", false⟩

/-- A machine with no files and the default temporary directory. -/
def sampleWorld : World where
  environ := [("MATLAB_PATH", "/Applications/MATLAB_R2025a.app/bin/matlab")]
  files := []
  trace := []

/-- The server `NewMATLABServer` makes on `sampleWorld`. -/
def sampleServer : MATLABServer :=
  ⟨"/Applications/MATLAB_R2025a.app/bin/matlab"⟩

/-- The name the first temporary file gets on `sampleWorld`. -/
def sampleName : String :=
  "/tmp/matlab_code_123.m"

/-- `sampleWorld` once the temporary file exists. -/
def sampleCreated : World where
  environ := [("MATLAB_PATH", "/Applications/MATLAB_R2025a.app/bin/matlab")]
  files := [("/tmp/matlab_code_123.m", "")]
  trace := [Event.created "/tmp/matlab_code_123.m"]

/-- `sampleWorld` once `code` is written to the temporary file. -/
def sampleWritten (code : String) : World where
  environ := [("MATLAB_PATH", "/Applications/MATLAB_R2025a.app/bin/matlab")]
  files := [("/tmp/matlab_code_123.m", code)]
  trace := [Event.created "/tmp/matlab_code_123.m", Event.wrote "/tmp/matlab_code_123.m" code]

/-- The request `code = "disp(2 + 3)"`, `timeout = 30`. -/
def sampleRequest : mcp.CallToolRequest :=
  ⟨[("code", .string "disp(2 + 3)"), ("timeout", .number ⟨30, 0⟩)]⟩

/-! ## Staging lemmas -/

theorem prefixAndSuffix_pattern :
    os.prefixAndSuffix "matlab_code_*.m" = .ok ("matlab_code_", ".m") := by
  rfl

theorem CreateTemp_loop_ok (h : Host) (pfx sfx : String) (w w1 : World) (name : String) :
    ∀ left attempt, os.CreateTemp.loop h pfx sfx w left attempt = (w1, .ok name) →
      (∃ i, name = pfx ++ os.nextRandom h i ++ sfx) ∧ w.hasFile name = false ∧
      w1 = { w with files := w.files ++ [(name, "")], trace := w.trace ++ [Event.created name] } := by
  intro left
  induction left with
  | zero => intro attempt hl; simp [os.CreateTemp.loop] at hl
  | succ n ih =>
    intro attempt hl
    unfold os.CreateTemp.loop at hl
    split at hl
    · simp at hl
    · split at hl
      · exact ih _ hl
      · rename_i hfree
        simp only [Prod.mk.injEq, Except.ok.injEq] at hl
        obtain ⟨hw, hn⟩ := hl
        subst hn
        exact ⟨⟨attempt, rfl⟩, by simpa using hfree, hw.symm⟩

theorem CreateTemp_loop_error (h : Host) (pfx sfx : String) (w w1 : World) (err : String) :
    ∀ left attempt, os.CreateTemp.loop h pfx sfx w left attempt = (w1, .error err) → w1 = w := by
  intro left
  induction left with
  | zero => intro attempt hl; simp [os.CreateTemp.loop] at hl; exact hl.1.symm
  | succ n ih =>
    intro attempt hl
    unfold os.CreateTemp.loop at hl
    split at hl
    · simp at hl; exact hl.1.symm
    · split at hl
      · exact ih _ hl
      · simp at hl

/-- A successful `os.CreateTemp` of the program's pattern: the name is built
from the temporary directory and a random number, no file had that name, and
the only effect is the new empty file. -/
theorem CreateTemp_ok (h : Host) (w w1 : World) (name : String)
    (hc : os.CreateTemp h "" "matlab_code_*.m" w = (w1, .ok name)) :
    (∃ i, name = os.joinPath (os.TempDir w) "matlab_code_" ++ os.nextRandom h i ++ ".m") ∧
      w.hasFile name = false ∧
      w1 = { w with files := w.files ++ [(name, "")], trace := w.trace ++ [Event.created name] } := by
  unfold os.CreateTemp at hc
  rw [prefixAndSuffix_pattern] at hc
  simpa using CreateTemp_loop_ok h _ _ w w1 name _ _ hc

/-- A failed `os.CreateTemp` leaves the machine as it was. -/
theorem CreateTemp_error (h : Host) (w w1 : World) (err : String)
    (hc : os.CreateTemp h "" "matlab_code_*.m" w = (w1, .error err)) : w1 = w := by
  unfold os.CreateTemp at hc
  rw [prefixAndSuffix_pattern] at hc
  exact CreateTemp_loop_error h _ _ w w1 err _ _ hc

/-- What `executeMATLAB` returns once the file is staged: the three-way
classification of lines 64 to 72 applied to the run of the command. -/
theorem executeMATLAB_staged (h : Host) (s : MATLABServer) (code : String) (timeout : Int)
    (w w1 w2 : World) (name : String)
    (hcreate : os.CreateTemp h "" "matlab_code_*.m" w = (w1, .ok name))
    (hwrite : File.WriteString h name code w1 = (w2, none)) :
    (executeMATLAB h s code timeout w).2 =
      let r := (exec.Cmd.CombinedOutput h timeout (executeMATLAB.command s name)
        (File.Close name w2)).2
      if r.deadlineExceeded then
        ("", some ("MATLAB execution timed out after " ++ time.Duration.String timeout))
      else
        match r.result.err with
        | some err => (r.result.output, some ("MATLAB execution failed: " ++ err))
        | none => (r.result.output, none) := by
  unfold executeMATLAB
  rw [hcreate]
  simp only [executeMATLAB.body, hwrite]
  split
  · rfl
  · generalize (exec.Cmd.CombinedOutput h timeout (executeMATLAB.command s name)
      (File.Close name w2)).2.result.err = e
    cases e <;> rfl

/-- What `handleExecuteMATLAB` returns for a request that carries a `code`
string: the projection of lines 89 to 95 of what `executeMATLAB` returned. -/
theorem handleExecuteMATLAB_of_code (h : Host) (s : MATLABServer)
    (request : mcp.CallToolRequest) (code : String) (w : World)
    (hcode : request.RequireString "code" = .ok code) :
    (handleExecuteMATLAB h s request w).2 =
      match (executeMATLAB h s code (handleExecuteMATLAB.timeout h request) w).2 with
      | (output, some err) =>
        .ok (mcp.NewToolResultError
          ("Error executing MATLAB code: " ++ err ++ "\nOutput: " ++ output))
      | (output, none) => .ok (mcp.NewToolResultText output) := by
  unfold handleExecuteMATLAB
  rw [hcode]
  simp only
  generalize executeMATLAB h s code (handleExecuteMATLAB.timeout h request) w = r
  obtain ⟨w1, output, err⟩ := r
  cases err <;> rfl

/-! ## Results -/

/-- C1 as stated fails: the interpreter exits with status 0 well before the
deadline of 30 s, having printed `5`, but the output pipe is held open past the
deadline, so `ctx.Err()` is `DeadlineExceeded` when `CombinedOutput` returns.
`executeMATLAB` returns the empty string with a timeout error, and the tool
result has `isError = true` and a text without the output. -/
theorem executeMATLAB_success_after_deadline :
    (exec.Cmd.CombinedOutput (hostReturning ⟨.success "     5\n\n", true⟩) 30000000000
      (executeMATLAB.command sampleServer sampleName)
      (File.Close sampleName (sampleWritten "disp(2 + 3)"))).2 =
      ⟨.success "     5\n\n", true⟩ ∧
    (executeMATLAB (hostReturning ⟨.success "     5\n\n", true⟩) sampleServer "disp(2 + 3)"
      30000000000 sampleWorld).2 = ("", some "MATLAB execution timed out after 30s") ∧
    (handleExecuteMATLAB (hostReturning ⟨.success "     5\n\n", true⟩) sampleServer sampleRequest
      sampleWorld).2 =
      .ok { Content := [{ Type_ := "text",
                          Text := "Error executing MATLAB code: MATLAB execution timed out after 30s\nOutput: " }],
            IsError := true } := by
  refine ⟨rfl, rfl, rfl⟩

/-- C1, amended.  When the temporary file is staged and the interpreter exits
successfully with combined output `o`, and the deadline has not fired by the
time `CombinedOutput` has returned, `executeMATLAB` returns `(o, nil)`, and
`handleExecuteMATLAB`, for every request that carries this code and this
timeout, returns the tool result with `isError = false` whose only content is
the text `o`, unchanged. -/
theorem executeMATLAB_success_verbatim (h : Host) (s : MATLABServer) (code : String)
    (timeout : Int) (w w1 w2 : World) (name o : String)
    (hcreate : os.CreateTemp h "" "matlab_code_*.m" w = (w1, .ok name))
    (hwrite : File.WriteString h name code w1 = (w2, none))
    (hrun : (exec.Cmd.CombinedOutput h timeout (executeMATLAB.command s name)
      (File.Close name w2)).2 = ⟨.success o, false⟩) :
    (executeMATLAB h s code timeout w).2 = (o, none) ∧
    ∀ request : mcp.CallToolRequest, request.RequireString "code" = .ok code →
      handleExecuteMATLAB.timeout h request = timeout →
      (handleExecuteMATLAB h s request w).2 =
        .ok { Content := [{ Type_ := "text", Text := o }], IsError := false } := by
  have hex : (executeMATLAB h s code timeout w).2 = (o, none) := by
    rw [executeMATLAB_staged h s code timeout w w1 w2 name hcreate hwrite]
    simp [hrun, ProcResult.err, ProcResult.output]
  refine ⟨hex, ?_⟩
  intro request hcode htimeout
  rw [handleExecuteMATLAB_of_code h s request code w hcode, htimeout, hex]
  rfl

/-- C2. When the temporary file is staged and the deadline has fired by the
time the run returns, `executeMATLAB` returns a non-nil error, and
`handleExecuteMATLAB` returns a tool result with `isError = true` whose text
has `execution timed out after ` followed by the `%v` rendering of the timeout
that was applied. -/
theorem executeMATLAB_timeout_reported (h : Host) (s : MATLABServer) (code : String)
    (timeout : Int) (w w1 w2 : World) (name : String)
    (hcreate : os.CreateTemp h "" "matlab_code_*.m" w = (w1, .ok name))
    (hwrite : File.WriteString h name code w1 = (w2, none))
    (hrun : (exec.Cmd.CombinedOutput h timeout (executeMATLAB.command s name)
      (File.Close name w2)).2.deadlineExceeded = true) :
    (executeMATLAB h s code timeout w).2.2 =
      some ("MATLAB " ++ ("execution timed out after " ++ time.Duration.String timeout)) ∧
    ∀ request : mcp.CallToolRequest, request.RequireString "code" = .ok code →
      handleExecuteMATLAB.timeout h request = timeout →
      (handleExecuteMATLAB h s request w).2 =
        .ok { Content := [{ Type_ := "text",
                            Text := "Error executing MATLAB code: MATLAB " ++
                              ("execution timed out after " ++ time.Duration.String timeout) ++
                              "\nOutput: " }],
              IsError := true } := by
  have e1 : "MATLAB execution timed out after " = "MATLAB " ++ "execution timed out after " := by
    decide
  have e2 : "Error executing MATLAB code: MATLAB " = "Error executing MATLAB code: " ++ "MATLAB " := by
    decide
  have hex : (executeMATLAB h s code timeout w).2 =
      ("", some ("MATLAB " ++ ("execution timed out after " ++ time.Duration.String timeout))) := by
    rw [executeMATLAB_staged h s code timeout w w1 w2 name hcreate hwrite]
    simp only [hrun, if_true]
    rw [e1, String.append_assoc]
  refine ⟨by rw [hex], ?_⟩
  intro request hcode htimeout
  rw [handleExecuteMATLAB_of_code h s request code w hcode, htimeout, hex]
  simp only [mcp.NewToolResultError]
  rw [e2]
  simp only [String.append_assoc, String.append_empty]

/-- C4 as stated fails: the interpreter starts and exits with status 1 well
before the deadline of 300 s, having printed an error, but the output pipe is
held open past the deadline, so `ctx.Err()` is `DeadlineExceeded` when
`CombinedOutput` returns.  The text of the tool result is the timeout text: it
has no `execution failed: ` and does not end with the output. -/
theorem handleExecuteMATLAB_failure_after_deadline :
    (exec.Cmd.CombinedOutput
      (hostReturning ⟨.failure "exit status 1" "Error: Invalid expression.\n", true⟩) 300000000000
      (executeMATLAB.command sampleServer sampleName)
      (File.Close sampleName (sampleWritten "invalid matlab syntax +++"))).2 =
      ⟨.failure "exit status 1" "Error: Invalid expression.\n", true⟩ ∧
    (handleExecuteMATLAB
      (hostReturning ⟨.failure "exit status 1" "Error: Invalid expression.\n", true⟩) sampleServer
      ⟨[("code", .string "invalid matlab syntax +++")]⟩ sampleWorld).2 =
      .ok { Content := [{ Type_ := "text",
                          Text := "Error executing MATLAB code: MATLAB execution timed out after 5m0s\nOutput: " }],
            IsError := true } ∧
    strings.Contains "Error executing MATLAB code: MATLAB execution timed out after 5m0s\nOutput: "
      "execution failed: " = false ∧
    strings.Contains "Error executing MATLAB code: MATLAB execution timed out after 5m0s\nOutput: "
      "Error: Invalid expression.\n" = false := by
  refine ⟨rfl, rfl, ?_, ?_⟩ <;> decide

/-- C4, amended.  When the interpreter starts, exits and reports failure with
summary `summary` and combined output `o`, and the deadline has not fired by
the time `CombinedOutput` has returned, `handleExecuteMATLAB` returns a tool
result with `isError = true` whose text has `execution failed: ` followed by
the summary, then the label `Output: ` on a new line, and ends with `o` in
full. -/
theorem handleExecuteMATLAB_failure_text (h : Host) (s : MATLABServer) (code : String)
    (timeout : Int) (w w1 w2 : World) (name summary o : String)
    (hcreate : os.CreateTemp h "" "matlab_code_*.m" w = (w1, .ok name))
    (hwrite : File.WriteString h name code w1 = (w2, none))
    (hrun : (exec.Cmd.CombinedOutput h timeout (executeMATLAB.command s name)
      (File.Close name w2)).2 = ⟨.failure summary o, false⟩) :
    (executeMATLAB h s code timeout w).2 = (o, some ("MATLAB execution failed: " ++ summary)) ∧
    ∀ request : mcp.CallToolRequest, request.RequireString "code" = .ok code →
      handleExecuteMATLAB.timeout h request = timeout →
      (handleExecuteMATLAB h s request w).2 =
        .ok { Content := [{ Type_ := "text",
                            Text := "Error executing MATLAB code: MATLAB " ++
                              ("execution failed: " ++ summary) ++ "\nOutput: " ++ o }],
              IsError := true } := by
  have e1 : "MATLAB execution failed: " = "MATLAB " ++ "execution failed: " := by decide
  have e2 : "Error executing MATLAB code: MATLAB " = "Error executing MATLAB code: " ++ "MATLAB " := by
    decide
  have hex : (executeMATLAB h s code timeout w).2 =
      (o, some ("MATLAB execution failed: " ++ summary)) := by
    rw [executeMATLAB_staged h s code timeout w w1 w2 name hcreate hwrite]
    simp [hrun, ProcResult.err, ProcResult.output]
  refine ⟨hex, ?_⟩
  intro request hcode htimeout
  rw [handleExecuteMATLAB_of_code h s request code w hcode, htimeout, hex]
  simp only [mcp.NewToolResultError]
  rw [e1, e2]
  simp only [String.append_assoc]

/-- C1, amended, on the sample machine: `disp(2 + 3)` with a 30 s timeout. -/
theorem executeMATLAB_success_verbatim_witness :
    (executeMATLAB sampleHost sampleServer "disp(2 + 3)" 30000000000 sampleWorld).2 =
      ("     5\n\n", none) ∧
    (handleExecuteMATLAB sampleHost sampleServer sampleRequest sampleWorld).2 =
      .ok { Content := [{ Type_ := "text", Text := "     5\n\n" }], IsError := false } :=
  have t := executeMATLAB_success_verbatim sampleHost sampleServer "disp(2 + 3)" 30000000000
    sampleWorld sampleCreated (sampleWritten "disp(2 + 3)") sampleName "     5\n\n" rfl rfl rfl
  ⟨t.1, t.2 sampleRequest rfl rfl⟩

/-- C2 on a sample machine: the interpreter is killed at the deadline of 1 s. -/
theorem executeMATLAB_timeout_reported_witness :
    (executeMATLAB (hostReturning ⟨.failure "signal: killed" "", true⟩) sampleServer
      "pause(2); disp('done')" 1000000000 sampleWorld).2.2 =
      some "MATLAB execution timed out after 1s" ∧
    (handleExecuteMATLAB (hostReturning ⟨.failure "signal: killed" "", true⟩) sampleServer
      ⟨[("code", .string "pause(2); disp('done')"), ("timeout", .number ⟨1, 0⟩)]⟩
      sampleWorld).2 =
      .ok { Content := [{ Type_ := "text",
                          Text := "Error executing MATLAB code: MATLAB execution timed out after 1s\nOutput: " }],
            IsError := true } :=
  have t := executeMATLAB_timeout_reported (hostReturning ⟨.failure "signal: killed" "", true⟩)
    sampleServer "pause(2); disp('done')" 1000000000 sampleWorld sampleCreated
    (sampleWritten "pause(2); disp('done')") sampleName rfl rfl rfl
  ⟨t.1, t.2 ⟨[("code", .string "pause(2); disp('done')"), ("timeout", .number ⟨1, 0⟩)]⟩ rfl rfl⟩

/-- C3, evaluated where it fails: the interpreter has printed `partial` when
the deadline of 1 s fires.  `executeMATLAB` returns the empty string, not the
captured output, and the text of the tool result does not contain it. -/
theorem executeMATLAB_timeout_drops_output :
    (exec.Cmd.CombinedOutput (hostReturning ⟨.failure "signal: killed" "partial\n", true⟩)
      1000000000 (executeMATLAB.command sampleServer sampleName)
      (File.Close sampleName (sampleWritten "disp('partial'); pause(5)"))).2 =
      ⟨.failure "signal: killed" "partial\n", true⟩ ∧
    (executeMATLAB (hostReturning ⟨.failure "signal: killed" "partial\n", true⟩) sampleServer
      "disp('partial'); pause(5)" 1000000000 sampleWorld).2 =
      ("", some "MATLAB execution timed out after 1s") ∧
    (handleExecuteMATLAB (hostReturning ⟨.failure "signal: killed" "partial\n", true⟩)
      sampleServer ⟨[("code", .string "disp('partial'); pause(5)"), ("timeout", .number ⟨1, 0⟩)]⟩
      sampleWorld).2 =
      .ok { Content := [{ Type_ := "text",
                          Text := "Error executing MATLAB code: MATLAB execution timed out after 1s\nOutput: " }],
            IsError := true } ∧
    strings.Contains "Error executing MATLAB code: MATLAB execution timed out after 1s\nOutput: "
      "partial\n" = false := by
  refine ⟨rfl, rfl, rfl, ?_⟩
  decide

/-- C4, amended, on a sample machine: a syntax error makes the interpreter exit
with status 1. -/
theorem handleExecuteMATLAB_failure_text_witness :
    (handleExecuteMATLAB (hostReturning ⟨.failure "exit status 1" "Error: Invalid expression.\n", false⟩)
      sampleServer ⟨[("code", .string "invalid matlab syntax +++")]⟩ sampleWorld).2 =
      .ok { Content := [{ Type_ := "text",
                          Text := "Error executing MATLAB code: MATLAB execution failed: exit status 1\nOutput: Error: Invalid expression.\n" }],
            IsError := true } :=
  (handleExecuteMATLAB_failure_text
    (hostReturning ⟨.failure "exit status 1" "Error: Invalid expression.\n", false⟩)
    sampleServer "invalid matlab syntax +++" 300000000000 sampleWorld sampleCreated
    (sampleWritten "invalid matlab syntax +++") sampleName "exit status 1"
    "Error: Invalid expression.\n" rfl rfl rfl).2
    ⟨[("code", .string "invalid matlab syntax +++")]⟩ rfl rfl

/-- C5 as stated fails: with a misconfigured interpreter path the launch fails
with `fork/exec /nonexistent/matlab: no such file or directory`; the text of
the tool result has no `failed to start interpreter: `, and the whole result is
the one an interpreter that ran and failed with that summary and no output
gets. -/
theorem handleExecuteMATLAB_launch_failure_wording :
    (handleExecuteMATLAB
      (hostReturning ⟨.launchFailed "fork/exec /nonexistent/matlab: no such file or directory", false⟩)
      ⟨"/nonexistent/matlab"⟩ ⟨[("code", .string "disp(1)")]⟩ sampleWorld).2 =
      .ok { Content := [{ Type_ := "text",
                          Text := "Error executing MATLAB code: MATLAB execution failed: fork/exec /nonexistent/matlab: no such file or directory\nOutput: " }],
            IsError := true } ∧
    strings.Contains
      "Error executing MATLAB code: MATLAB execution failed: fork/exec /nonexistent/matlab: no such file or directory\nOutput: "
      "failed to start interpreter: " = false ∧
    (handleExecuteMATLAB
      (hostReturning ⟨.failure "fork/exec /nonexistent/matlab: no such file or directory" "", false⟩)
      ⟨"/nonexistent/matlab"⟩ ⟨[("code", .string "disp(1)")]⟩ sampleWorld).2 =
    (handleExecuteMATLAB
      (hostReturning ⟨.launchFailed "fork/exec /nonexistent/matlab: no such file or directory", false⟩)
      ⟨"/nonexistent/matlab"⟩ ⟨[("code", .string "disp(1)")]⟩ sampleWorld).2 := by
  refine ⟨rfl, ?_, rfl⟩
  decide

/-- C5, amended.  When the interpreter cannot be launched, with launch error
`r`, and the deadline has not fired, `handleExecuteMATLAB` returns a tool
result with `isError = true` whose text has `execution failed: ` followed by
`r` and then the empty `Output: ` label: the wording of a non-zero exit. -/
theorem handleExecuteMATLAB_launch_failure_text (h : Host) (s : MATLABServer) (code : String)
    (timeout : Int) (w w1 w2 : World) (name r : String)
    (hcreate : os.CreateTemp h "" "matlab_code_*.m" w = (w1, .ok name))
    (hwrite : File.WriteString h name code w1 = (w2, none))
    (hrun : (exec.Cmd.CombinedOutput h timeout (executeMATLAB.command s name)
      (File.Close name w2)).2 = ⟨.launchFailed r, false⟩) :
    (executeMATLAB h s code timeout w).2 = ("", some ("MATLAB execution failed: " ++ r)) ∧
    ∀ request : mcp.CallToolRequest, request.RequireString "code" = .ok code →
      handleExecuteMATLAB.timeout h request = timeout →
      (handleExecuteMATLAB h s request w).2 =
        .ok { Content := [{ Type_ := "text",
                            Text := "Error executing MATLAB code: MATLAB " ++
                              ("execution failed: " ++ r) ++ "\nOutput: " }],
              IsError := true } := by
  have e1 : "MATLAB execution failed: " = "MATLAB " ++ "execution failed: " := by decide
  have e2 : "Error executing MATLAB code: MATLAB " = "Error executing MATLAB code: " ++ "MATLAB " := by
    decide
  have hex : (executeMATLAB h s code timeout w).2 =
      ("", some ("MATLAB execution failed: " ++ r)) := by
    rw [executeMATLAB_staged h s code timeout w w1 w2 name hcreate hwrite]
    simp [hrun, ProcResult.err, ProcResult.output]
  refine ⟨hex, ?_⟩
  intro request hcode htimeout
  rw [handleExecuteMATLAB_of_code h s request code w hcode, htimeout, hex]
  simp only [mcp.NewToolResultError]
  rw [e1, e2]
  simp only [String.append_assoc, String.append_empty]

/-- C5, amended, on a sample machine: the interpreter path does not exist. -/
theorem handleExecuteMATLAB_launch_failure_text_witness :
    (handleExecuteMATLAB
      (hostReturning ⟨.launchFailed "exec: \"matlab\": executable file not found in $PATH", false⟩)
      ⟨"matlab"⟩ ⟨[("code", .string "disp(1)")]⟩ sampleWorld).2 =
      .ok { Content := [{ Type_ := "text",
                          Text := "Error executing MATLAB code: MATLAB execution failed: exec: \"matlab\": executable file not found in $PATH\nOutput: " }],
            IsError := true } :=
  (handleExecuteMATLAB_launch_failure_text
    (hostReturning ⟨.launchFailed "exec: \"matlab\": executable file not found in $PATH", false⟩)
    ⟨"matlab"⟩ "disp(1)" 300000000000 sampleWorld sampleCreated (sampleWritten "disp(1)")
    sampleName "exec: \"matlab\": executable file not found in $PATH" rfl rfl rfl).2
    ⟨[("code", .string "disp(1)")]⟩ rfl rfl

/-- C6. A request whose `code` argument is absent or is not a string is
rejected with an error and no tool result, and the machine is left exactly as
it was: no file is created and no command is run. -/
theorem handleExecuteMATLAB_rejects_without_code (h : Host) (s : MATLABServer)
    (request : mcp.CallToolRequest) (w : World)
    (hcode : ∀ str : String, request.arg "code" ≠ some (mcp.Value.string str)) :
    ∃ err : String, handleExecuteMATLAB h s request w = (w, .error err) := by
  unfold handleExecuteMATLAB mcp.CallToolRequest.RequireString
  cases harg : request.arg "code" with
  | none => exact ⟨_, rfl⟩
  | some v =>
    cases v with
    | string str => exact absurd harg (hcode str)
    | _ => exact ⟨_, rfl⟩

/-- C6 on the two requests of the test suite: `code` missing, and `code` a
number. -/
theorem handleExecuteMATLAB_rejects_without_code_witness :
    (∃ err : String, handleExecuteMATLAB sampleHost sampleServer
      ⟨[("timeout", .number ⟨30, 0⟩)]⟩ sampleWorld = (sampleWorld, .error err)) ∧
    (∃ err : String, handleExecuteMATLAB sampleHost sampleServer
      ⟨[("code", .number ⟨123, 0⟩)]⟩ sampleWorld = (sampleWorld, .error err)) :=
  ⟨handleExecuteMATLAB_rejects_without_code sampleHost sampleServer
      ⟨[("timeout", .number ⟨30, 0⟩)]⟩ sampleWorld (fun _ hstr => by simp [mcp.CallToolRequest.arg] at hstr),
    handleExecuteMATLAB_rejects_without_code sampleHost sampleServer
      ⟨[("code", .number ⟨123, 0⟩)]⟩ sampleWorld (fun _ hstr => by simp [mcp.CallToolRequest.arg] at hstr)⟩

/-- C7, evaluated where it fails.  For `timeout = 1.5` the handler runs the
command under a deadline of 1 s (1000000000 ns, not 1500000000), and for
`timeout = 0.5` under a deadline of 0 s, which has expired before the
interpreter is started. -/
theorem handleExecuteMATLAB_timeout_truncated :
    handleExecuteMATLAB.timeout sampleHost
      ⟨[("code", .string "disp(1)"), ("timeout", .number ⟨3, -1⟩)]⟩ = 1000000000 ∧
    (handleExecuteMATLAB sampleHost sampleServer
      ⟨[("code", .string "disp(1)"), ("timeout", .number ⟨3, -1⟩)]⟩ sampleWorld).1.trace =
      [Event.created "/tmp/matlab_code_123.m",
       Event.wrote "/tmp/matlab_code_123.m" "disp(1)",
       Event.closed "/tmp/matlab_code_123.m",
       Event.ran ⟨"/Applications/MATLAB_R2025a.app/bin/matlab", ["-batch", "matlab_code_123"],
         "/tmp"⟩ 1000000000,
       Event.removed "/tmp/matlab_code_123.m"] ∧
    handleExecuteMATLAB.timeout sampleHost
      ⟨[("code", .string "disp(1)"), ("timeout", .number ⟨1, -1⟩)]⟩ = 0 ∧
    (handleExecuteMATLAB sampleHost sampleServer
      ⟨[("code", .string "disp(1)"), ("timeout", .number ⟨1, -1⟩)]⟩ sampleWorld).2 =
      .ok { Content := [{ Type_ := "text",
                          Text := "Error executing MATLAB code: MATLAB execution timed out after 0s\nOutput: " }],
            IsError := true } := by
  refine ⟨rfl, rfl, rfl, rfl⟩

/-- Without a `timeout` argument the deadline is 300 s. -/
theorem handleExecuteMATLAB_timeout_default (h : Host) (request : mcp.CallToolRequest)
    (hnone : request.arg "timeout" = none) :
    handleExecuteMATLAB.timeout h request = 300 * time.Second := by
  unfold handleExecuteMATLAB.timeout mcp.CallToolRequest.GetFloat
  rw [hnone]
  simp only
  decide

/-- A `timeout` of a whole number `n` of seconds gives a deadline of `n`
seconds, as long as that many nanoseconds fit an int64. -/
theorem handleExecuteMATLAB_timeout_whole (h : Host) (request : mcp.CallToolRequest) (n : Int)
    (harg : request.arg "timeout" = some (.number ⟨n, 0⟩)) (h0 : 0 ≤ n)
    (h1 : n * 1000000000 < 2 ^ 63) :
    handleExecuteMATLAB.timeout h request = n * time.Second := by
  unfold handleExecuteMATLAB.timeout mcp.CallToolRequest.GetFloat
  rw [harg]
  have ht : Float64.trunc ⟨n, 0⟩ = n := by simp [Float64.trunc]
  have hd : time.DurationOf ⟨n, 0⟩ = n := by
    unfold time.DurationOf
    rw [ht, if_pos]
    constructor <;> omega
  simp only [hd, time.mul, time.wrap64, time.Second]
  rw [Int.emod_eq_of_lt (by omega) (by omega)]
  omega

/-- C8. The server `NewMATLABServer` returns has the value of `MATLAB_PATH` as
its interpreter path when that variable is set and not empty, and the bare
command name `matlab` when it is unset or empty. -/
theorem NewMATLABServer_matlabPath (w : World) :
    (∀ v : String, os.LookupEnv w "MATLAB_PATH" = some v → v ≠ "" →
      (NewMATLABServer w).matlabPath = v) ∧
    (os.LookupEnv w "MATLAB_PATH" = none ∨ os.LookupEnv w "MATLAB_PATH" = some "" →
      (NewMATLABServer w).matlabPath = "matlab") := by
  constructor
  · intro v hv hne
    simp [NewMATLABServer, os.Getenv, hv, hne]
  · intro hv
    rcases hv with hv | hv <;> simp [NewMATLABServer, os.Getenv, hv]

/-- C8 on the two environments of the test suite, and on an empty value. -/
theorem NewMATLABServer_matlabPath_witness :
    (NewMATLABServer sampleWorld).matlabPath = "/Applications/MATLAB_R2025a.app/bin/matlab" ∧
    (NewMATLABServer ⟨[], [], []⟩).matlabPath = "matlab" ∧
    (NewMATLABServer ⟨[("MATLAB_PATH", "")], [], []⟩).matlabPath = "matlab" :=
  ⟨(NewMATLABServer_matlabPath sampleWorld).1 _ rfl (by decide),
    (NewMATLABServer_matlabPath ⟨[], [], []⟩).2 (Or.inl rfl),
    (NewMATLABServer_matlabPath ⟨[("MATLAB_PATH", "")], [], []⟩).2 (Or.inr rfl)⟩

/-! ## Paths -/


/-- Writing to the file `name` does not change which names pass a filter that
drops `name`. -/
theorem filter_map_write (name x : String) (l : List (String × String)) :
    (l.map (fun f => if f.1 = name then (f.1, f.2 ++ x) else f)).filter
      (fun f => decide (f.1 ≠ name)) = l.filter (fun f => decide (f.1 ≠ name)) := by
  induction l with
  | nil => rfl
  | cons a t ih =>
    by_cases ha : a.1 = name <;> simp_all [List.filter_cons]

/-- Dropping a name no file has changes nothing. -/
theorem filter_absent (name : String) (l : List (String × String))
    (hl : l.any (fun f => decide (f.1 = name)) = false) :
    l.filter (fun f => decide (f.1 ≠ name)) = l := by
  induction l with
  | nil => rfl
  | cons a t ih =>
    simp only [List.any_cons, Bool.or_eq_false_iff, decide_eq_false_iff_not] at hl
    rw [List.filter_cons, ih hl.2]
    simp [hl.1]

/-- What `CombinedOutput` does to the machine: nothing, or one process
started. -/
theorem CombinedOutput_world (h : Host) (timeout : Int) (cmd : exec.Cmd) (w : World) :
    ∃ l : List Event,
      (exec.Cmd.CombinedOutput h timeout cmd w).1 = { w with trace := w.trace ++ l } ∧
      (l = [] ∨ l = [Event.ran cmd timeout]) := by
  unfold exec.Cmd.CombinedOutput
  split
  · exact ⟨[], by simp, Or.inl rfl⟩
  · split
    · exact ⟨[Event.ran cmd timeout], rfl, Or.inr rfl⟩
    · exact ⟨[], by simp, Or.inl rfl⟩

/-- The machine after the body of `executeMATLAB`: the content of files named
`name` may have grown, and what happened is a write, a close and at most one
process started; no removal. -/
theorem executeMATLAB_body_world (h : Host) (s : MATLABServer) (code : String) (timeout : Int)
    (name : String) (w : World) :
    ∃ (written : String) (mid : List Event),
      (executeMATLAB.body h s code timeout name w).1 =
        { w with
            files := w.files.map (fun f => if f.1 = name then (f.1, f.2 ++ written) else f)
            trace := w.trace ++ mid } ∧
      ∀ n : String, Event.removed n ∉ mid := by
  cases hf : h.writeFault name code with
  | some e =>
    refine ⟨String.mk (code.data.take e.1), [Event.wrote name (String.mk (code.data.take e.1)),
      Event.closed name], ?_, ?_⟩
    · unfold executeMATLAB.body File.WriteString
      simp [File.Close, hf]
    · intro n; simp
  | none =>
    have hwrite : File.WriteString h name code w =
        ({ w with
            files := w.files.map (fun f => if f.1 = name then (f.1, f.2 ++ code) else f)
            trace := w.trace ++ [Event.wrote name code] }, none) := by
      unfold File.WriteString
      simp [hf]
    have hb : (executeMATLAB.body h s code timeout name w).1 =
        (exec.Cmd.CombinedOutput h timeout (executeMATLAB.command s name)
          (File.Close name { w with
            files := w.files.map (fun f => if f.1 = name then (f.1, f.2 ++ code) else f)
            trace := w.trace ++ [Event.wrote name code] })).1 := by
      simp only [executeMATLAB.body, hwrite]
      split
      · rfl
      · generalize (exec.Cmd.CombinedOutput h timeout (executeMATLAB.command s name)
          (File.Close name { w with
            files := w.files.map (fun f => if f.1 = name then (f.1, f.2 ++ code) else f)
            trace := w.trace ++ [Event.wrote name code] })).2.result.err = e
        cases e <;> rfl
    obtain ⟨l, hl, hcases⟩ := CombinedOutput_world h timeout (executeMATLAB.command s name)
      (File.Close name { w with
        files := w.files.map (fun f => if f.1 = name then (f.1, f.2 ++ code) else f)
        trace := w.trace ++ [Event.wrote name code] })
    refine ⟨code, [Event.wrote name code, Event.closed name] ++ l, ?_, ?_⟩
    · rw [hb, hl]
      simp [File.Close]
    · intro n
      rcases hcases with rfl | rfl <;> simp

/-- C9. On every path of `executeMATLAB` on which the temporary file was
created (write failure, launch failure, non-zero exit, timeout, success), the
calls issued after the creation hold exactly one removal, the last call, and
it removes the created file; the files after the call are the files before
it.  When creating the file fails the machine is left as it was: no removal is
issued and no file is left behind. -/
theorem executeMATLAB_releases_exactly_once (h : Host) (s : MATLABServer) (code : String)
    (timeout : Int) (w : World) :
    (∀ (w1 : World) (name : String),
      os.CreateTemp h "" "matlab_code_*.m" w = (w1, .ok name) →
      (∃ mid : List Event,
        (executeMATLAB h s code timeout w).1.trace =
          w.trace ++ Event.created name :: mid ++ [Event.removed name] ∧
        ∀ n : String, Event.removed n ∉ mid) ∧
      (executeMATLAB h s code timeout w).1.files = w.files) ∧
    (∀ (w1 : World) (err : String),
      os.CreateTemp h "" "matlab_code_*.m" w = (w1, .error err) →
      (executeMATLAB h s code timeout w).1 = w) := by
  constructor
  · intro w1 name hc
    obtain ⟨-, hfree, hw1⟩ := CreateTemp_ok h w w1 name hc
    obtain ⟨written, mid, hbody, hmid⟩ := executeMATLAB_body_world h s code timeout name w1
    have hex : (executeMATLAB h s code timeout w).1 =
        os.Remove name (executeMATLAB.body h s code timeout name w1).1 := by
      unfold executeMATLAB
      rw [hc]
    rw [hex, hbody, hw1]
    refine ⟨⟨mid, ?_, hmid⟩, ?_⟩
    · simp [os.Remove]
    · simp only [os.Remove, filter_map_write]
      rw [List.filter_append, filter_absent name w.files hfree]
      simp
  · intro w1 err hc
    have hw1 := CreateTemp_error h w w1 err hc
    unfold executeMATLAB
    rw [hc]
    exact hw1


/-- C9 on sample machines: a successful run, a write that fails after three
characters, and a temporary file that cannot be created. -/
theorem executeMATLAB_releases_exactly_once_witness :
    ((∃ mid : List Event,
        (executeMATLAB sampleHost sampleServer "disp(2 + 3)" 30000000000 sampleWorld).1.trace =
          sampleWorld.trace ++ Event.created sampleName :: mid ++ [Event.removed sampleName] ∧
        ∀ n : String, Event.removed n ∉ mid) ∧
      (executeMATLAB sampleHost sampleServer "disp(2 + 3)" 30000000000 sampleWorld).1.files =
        sampleWorld.files) ∧
    ((∃ mid : List Event,
        (executeMATLAB (hostWriteFault 3 "write /tmp/matlab_code_123.m: no space left on device")
          sampleServer "disp(2 + 3)" 30000000000 sampleWorld).1.trace =
          sampleWorld.trace ++ Event.created sampleName :: mid ++ [Event.removed sampleName] ∧
        ∀ n : String, Event.removed n ∉ mid) ∧
      (executeMATLAB (hostWriteFault 3 "write /tmp/matlab_code_123.m: no space left on device")
        sampleServer "disp(2 + 3)" 30000000000 sampleWorld).1.files = sampleWorld.files) ∧
    (executeMATLAB (hostOpenFault "open /tmp/matlab_code_123.m: permission denied")
      sampleServer "disp(2 + 3)" 30000000000 sampleWorld).1 = sampleWorld :=
  ⟨(executeMATLAB_releases_exactly_once sampleHost sampleServer "disp(2 + 3)" 30000000000
      sampleWorld).1 sampleCreated sampleName rfl,
    (executeMATLAB_releases_exactly_once
      (hostWriteFault 3 "write /tmp/matlab_code_123.m: no space left on device") sampleServer
      "disp(2 + 3)" 30000000000 sampleWorld).1 sampleCreated sampleName rfl,
    (executeMATLAB_releases_exactly_once
      (hostOpenFault "open /tmp/matlab_code_123.m: permission denied") sampleServer
      "disp(2 + 3)" 30000000000 sampleWorld).2 sampleWorld
      "open /tmp/matlab_code_123.m: permission denied" rfl⟩

/-! ## The staged unit and the command -/

end BatchMCP
